import Mathlib

/-!
Verification of the request/response mapping of a small Go HTTP service
(`main.go`): a `/chat` endpoint forwarding to a text-completion provider,
an `/upload` endpoint forwarding to an object-storage provider, and a
`/health` endpoint, together with layered configuration loading and
client initialisation.

External provider calls are modelled as oracles (functions supplied as
parameters); each handler additionally returns the list of provider
operations it performed, so that "never calls the provider" and
"steps happen in order" are statable.
-/

/-- Configuration record, from `type Config struct` in main.go. -/
structure Config where
  port : String
  openaiKey : String
  minioURL : String
  minioKey : String
  minioSecret : String
deriving Repr, DecidableEq

/-- Request body of `/chat` (`ChatRequest`). -/
structure ChatRequest where
  message : String
deriving Repr, DecidableEq

/-- Response body of `/chat` (`ChatResponse`). -/
structure ChatResponse where
  reply : String
deriving Repr, DecidableEq

/-- Request body of `/upload` (`FileUploadRequest`). -/
structure FileUploadRequest where
  bucketName : String
  fileName : String
  content : String
deriving Repr, DecidableEq

/-- Response body of `/upload` (`FileUploadResponse`). -/
structure FileUploadResponse where
  success : Bool
  message : String
deriving Repr, DecidableEq

/-- A single chat message sent to the completion provider
(`openai.ChatCompletionMessage`): a role and a content string. -/
structure ChatMessage where
  role : String
  content : String
deriving Repr, DecidableEq

/-- The request the handler sends to the completion provider
(`openai.ChatCompletionRequest`): model identifier and message list. -/
structure ChatCompletionRequest where
  model : String
  messages : List ChatMessage
deriving Repr, DecidableEq

/-- One returned choice (`resp.Choices[i]`), carrying a message. -/
structure ChatChoice where
  message : ChatMessage
deriving Repr, DecidableEq

/-- Provider response (`openai.ChatCompletionResponse`): list of choices. -/
structure ChatCompletionResponse where
  choices : List ChatChoice
deriving Repr, DecidableEq

/-- The completion client, modelled by its observable behaviour: a function
from the request to either an error text or a provider response
(`openaiClient.CreateChatCompletion`). -/
def CompletionClient : Type :=
  ChatCompletionRequest → Except String ChatCompletionResponse

/-- The storage client, modelled by the observable behaviour of the three
operations the handler uses (`BucketExists`, `MakeBucket`, `PutObject`);
each returns either the provider error text or its result. -/
structure StorageClient where
  bucketExists : String → Except String Bool
  makeBucket : String → Except String Unit
  putObject : String → String → String → Except String Unit

/-- A storage-provider operation, recorded in the handler's call trace. -/
inductive StorageOp where
  | bucketExists (bucket : String)
  | makeBucket (bucket : String)
  | putObject (bucket object content : String)
deriving Repr, DecidableEq

/-- Outcome of a huma handler: a 200 response with a typed body, or a huma
error (`huma.Error400BadRequest` / `huma.Error500InternalServerError`)
with its HTTP status, its detail message, and the list of wrapped error
texts it carries. -/
inductive HandlerResult (α : Type) where
  | success (body : α)
  | failure (status : Nat) (detail : String) (errors : List String)
deriving Repr, DecidableEq

/-- The constant `openai.GPT3Dot5Turbo`, the fixed model identifier used by
the chat handler. -/
def gpt3Dot5Turbo : String := "gpt-3.5-turbo"

/-- The constant `openai.ChatMessageRoleUser`. -/
def chatMessageRoleUser : String := "user"

/-- The provider request the chat handler constructs from the inbound
message (main.go lines 149-160). -/
def chatProviderRequest (message : String) : ChatCompletionRequest :=
  { model := gpt3Dot5Turbo
    messages := [{ role := chatMessageRoleUser, content := message }] }

/-- The `/chat` handler body (main.go lines 140-175), given the optional
completion client and the request. Returns the handler outcome together
with the list of provider requests actually issued. -/
def chatHandler (client : Option CompletionClient) (req : ChatRequest) :
    HandlerResult ChatResponse × List ChatCompletionRequest :=
  match client with
  | none => (.failure 400 "OpenAI client not configured" [], [])
  | some c =>
    let creq := chatProviderRequest req.message
    match c creq with
    | .error e => (.failure 500 "Failed to get OpenAI response" [e], [creq])
    | .ok resp =>
      let reply :=
        match resp.choices with
        | [] => "No response"
        | choice :: _ => choice.message.content
      (.success { reply := reply }, [creq])

/-- The `/upload` handler body (main.go lines 185-252), given the optional
storage client and the request. Returns the handler outcome together with
the trace of storage operations performed, in order. Every branch of the
Go handler returns a 200 response with a `FileUploadResponse` body and a
nil error. -/
def uploadHandler (client : Option StorageClient) (req : FileUploadRequest) :
    HandlerResult FileUploadResponse × List StorageOp :=
  match client with
  | none =>
    (.success { success := false, message := "MinIO client not configured" }, [])
  | some c =>
    match c.bucketExists req.bucketName with
    | .error e =>
      (.success { success := false
                  message := "Failed to check bucket existence: " ++ e },
       [.bucketExists req.bucketName])
    | .ok ex =>
      if ex then
        match c.putObject req.bucketName req.fileName req.content with
        | .error e =>
          (.success { success := false, message := "Failed to upload file: " ++ e },
           [.bucketExists req.bucketName,
            .putObject req.bucketName req.fileName req.content])
        | .ok _ =>
          (.success { success := true
                      message := "File " ++ req.fileName ++
                        " uploaded successfully to bucket " ++ req.bucketName },
           [.bucketExists req.bucketName,
            .putObject req.bucketName req.fileName req.content])
      else
        match c.makeBucket req.bucketName with
        | .error e =>
          (.success { success := false, message := "Failed to create bucket: " ++ e },
           [.bucketExists req.bucketName, .makeBucket req.bucketName])
        | .ok _ =>
          match c.putObject req.bucketName req.fileName req.content with
          | .error e =>
            (.success { success := false, message := "Failed to upload file: " ++ e },
             [.bucketExists req.bucketName, .makeBucket req.bucketName,
              .putObject req.bucketName req.fileName req.content])
          | .ok _ =>
            (.success { success := true
                        message := "File " ++ req.fileName ++
                          " uploaded successfully to bucket " ++ req.bucketName },
             [.bucketExists req.bucketName, .makeBucket req.bucketName,
              .putObject req.bucketName req.fileName req.content])

/-- One value of the free-form `map[string]interface{}` body built by the
health handler: the handler stores a plain string, a string-to-bool map,
or a string-to-string map under each key, with all keys literal strings
in the source. Maps are embedded as association lists in source order. -/
inductive HealthField where
  | str (s : String)
  | boolObj (fields : List (String × Bool))
  | strObj (fields : List (String × String))
deriving Repr, DecidableEq

/-- The body built by the `/health` handler (main.go lines 265-275):
status, presence booleans for the two clients, and the effective port and
storage endpoint, each under its literal key. -/
def healthBody (cfg : Config) (openaiClient : Option CompletionClient)
    (minioClient : Option StorageClient) : List (String × HealthField) :=
  [("status", .str "healthy"),
   ("services", .boolObj [("openai", openaiClient.isSome),
                          ("minio", minioClient.isSome)]),
   ("config", .strObj [("port", cfg.port),
                       ("minio_url", cfg.minioURL)])]

/-- The `/health` handler body (main.go lines 262-282): always a 200
response carrying `healthBody`. -/
def healthHandler (cfg : Config) (openaiClient : Option CompletionClient)
    (minioClient : Option StorageClient) :
    HandlerResult (List (String × HealthField)) :=
  .success (healthBody cfg openaiClient minioClient)

/-- The environment-variable name viper consults for a key, given
`SetEnvPrefix("APP")` and the `"."` to `"_"` key replacer: the prefix
`APP_` followed by the key with dots replaced by underscores, upper-cased
(character-wise, since the replacer's pattern is a single character). -/
def envVarName (key : String) : String :=
  "APP_" ++ String.mk (key.data.map fun ch =>
    (if ch = '.' then '_' else ch).toUpper)

/-- The defaults installed by `initConfig` via `viper.SetDefault`
(main.go lines 62-63): only `port` and `minio_url` have defaults. -/
def appDefaults (key : String) : Option String :=
  if key = "port" then some "8080"
  else if key = "minio_url" then some "localhost:9000"
  else none

/-- Viper's `GetString` under the setup of `initConfig`: environment (with
the `APP_` prefix) takes precedence over the optional config file, which
takes precedence over the defaults; a key set nowhere reads as `""`. -/
def viperGetString (fileCfg envVars : String → Option String) (key : String) :
    String :=
  match envVars (envVarName key) with
  | some v => v
  | none =>
    match fileCfg key with
    | some v => v
    | none => (appDefaults key).getD ""

/-- The function `initConfig` (main.go lines 54-81): the `Config` produced by
unmarshalling viper's merged view of defaults, the optional config file
and the environment. The file and environment are parameters: `fileCfg`
maps a config key to its file value (or `none` when the file is absent or
lacks the key), `envVars` maps an environment-variable name to its value. -/
def initConfig (fileCfg envVars : String → Option String) : Config :=
  { port := viperGetString fileCfg envVars "port"
    openaiKey := viperGetString fileCfg envVars "openai_key"
    minioURL := viperGetString fileCfg envVars "minio_url"
    minioKey := viperGetString fileCfg envVars "minio_key"
    minioSecret := viperGetString fileCfg envVars "minio_secret" }

/-- The function `initClients` (main.go lines 83-107): the OpenAI client is built iff
the key is non-empty; the MinIO client is built iff both credentials are
non-empty and `minio.New` succeeds — on a construction error the code only
logs and continues, leaving the client absent. `openaiNew` and `minioNew`
are the constructors, the latter fallible. -/
def initClients (cfg : Config) (openaiNew : String → CompletionClient)
    (minioNew : String → Except String StorageClient) :
    Option CompletionClient × Option StorageClient :=
  let oc := if cfg.openaiKey ≠ "" then some (openaiNew cfg.openaiKey) else none
  let mc :=
    if cfg.minioKey ≠ "" ∧ cfg.minioSecret ≠ "" then
      match minioNew cfg.minioURL with
      | .ok c => some c
      | .error _ => none
    else none
  (oc, mc)

/-- The health body shape as the spec's data model states it, with service
keys `completion` and `storage` and config key `storage_endpoint`; defined
from the spec's words only, for comparison with `healthBody`. -/
def specHealthBody (cfg : Config) (openaiClient : Option CompletionClient)
    (minioClient : Option StorageClient) : List (String × HealthField) :=
  [("status", .str "healthy"),
   ("services", .boolObj [("completion", openaiClient.isSome),
                          ("storage", minioClient.isSome)]),
   ("config", .strObj [("port", cfg.port),
                       ("storage_endpoint", cfg.minioURL)])]

/-- A configuration with both storage credentials empty and no completion
key: both clients disabled. -/
def cfgEx : Config :=
  { port := "8080", openaiKey := "", minioURL := "localhost:9000"
    minioKey := "", minioSecret := "" }

/-- A fully populated configuration: every credential non-empty. -/
def cfgFull : Config :=
  { port := "8080", openaiKey := "sk-test", minioURL := "localhost:9000"
    minioKey := "access", minioSecret := "secret" }

/-- The upload request of the spec's scenario. -/
def reqEx : FileUploadRequest :=
  { bucketName := "test", fileName := "hello.txt", content := "Hello World!" }

/-- The chat request of the spec's round-trip scenario. -/
def chatReqEx : ChatRequest := { message := "Hello!" }

/-- A completion client that succeeds with zero choices. -/
def ccEmpty : CompletionClient := fun _ => .ok { choices := [] }

/-- A completion client whose provider call fails. -/
def ccErr : CompletionClient := fun _ => .error "boom"

/-- A completion-client constructor for concrete instantiations. -/
def openaiNewEx : String → CompletionClient := fun _ => ccEmpty

/-- A storage client for which every bucket exists and all operations
succeed. -/
def stClientAllOk : StorageClient :=
  { bucketExists := fun _ => .ok true
    makeBucket := fun _ => .ok ()
    putObject := fun _ _ _ => .ok () }

/-- A storage client for which no bucket exists yet and creation and
writes succeed. -/
def stClientFreshOk : StorageClient :=
  { bucketExists := fun _ => .ok false
    makeBucket := fun _ => .ok ()
    putObject := fun _ _ _ => .ok () }

/-- A storage client whose existence check fails. -/
def stClientCheckErr : StorageClient :=
  { bucketExists := fun _ => .error "boom"
    makeBucket := fun _ => .ok ()
    putObject := fun _ _ _ => .ok () }

/-- A storage-client constructor that always succeeds. -/
def minioNewEx : String → Except String StorageClient :=
  fun _ => .ok stClientAllOk

/-- A storage-client constructor that always fails, as `minio.New` does on
a malformed endpoint. -/
def minioNewFail : String → Except String StorageClient :=
  fun _ => .error "connection refused"

/-- A config file assigning `port` the value `8080`. -/
def fileCfgEx : String → Option String :=
  fun k => if k = "port" then some "8080" else none

/-- An environment assigning `APP_PORT` the value `9090`. -/
def envVarsEx : String → Option String :=
  fun k => if k = "APP_PORT" then some "9090" else none

/-- Claim C1 (amended): for every upload request, when `minio_key` or
`minio_secret` is empty no storage client is built, and the `/upload`
handler returns a 200 response with `success := false` and the message
exactly `MinIO client not configured`, issuing no storage operation. -/
theorem c1_upload_not_configured (cfg : Config)
    (openaiNew : String → CompletionClient)
    (minioNew : String → Except String StorageClient)
    (req : FileUploadRequest)
    (h : cfg.minioKey = "" ∨ cfg.minioSecret = "") :
    uploadHandler (initClients cfg openaiNew minioNew).2 req =
      (.success { success := false, message := "MinIO client not configured" },
       []) := by
  have hmc : (initClients cfg openaiNew minioNew).2 = none := by
    rcases h with h | h <;> simp [initClients, h]
  rw [hmc]
  rfl

/-- Claim C1, counterexample to the claim as stated: with both storage
credentials empty the handler's message is `MinIO client not configured`,
not `storage client not configured`. -/
theorem c1_counterexample :
    (initClients cfgEx openaiNewEx minioNewEx).2.isNone = true ∧
    (uploadHandler (initClients cfgEx openaiNewEx minioNewEx).2 reqEx).1 =
      HandlerResult.success ⟨false, "MinIO client not configured"⟩ ∧
    (uploadHandler (initClients cfgEx openaiNewEx minioNewEx).2 reqEx).1 ≠
      HandlerResult.success ⟨false, "storage client not configured"⟩ :=
  ⟨rfl, by decide, by decide⟩

/-- Claim C1, witness: the amended theorem applied to the all-empty
configuration and the scenario request. -/
theorem c1_witness :
    (cfgEx.minioKey = "" ∨ cfgEx.minioSecret = "") ∧
    uploadHandler (initClients cfgEx openaiNewEx minioNewEx).2 reqEx =
      (.success { success := false, message := "MinIO client not configured" },
       []) :=
  ⟨Or.inl rfl,
   c1_upload_not_configured cfgEx openaiNewEx minioNewEx reqEx (Or.inl rfl)⟩

/-- Claim C2 (amended): for every chat request, when `openai_key` is empty
no completion client is built, and the `/chat` handler fails with HTTP 400
and detail exactly `OpenAI client not configured`, issuing no provider
call. -/
theorem c2_chat_not_configured (cfg : Config)
    (openaiNew : String → CompletionClient)
    (minioNew : String → Except String StorageClient)
    (req : ChatRequest)
    (h : cfg.openaiKey = "") :
    chatHandler (initClients cfg openaiNew minioNew).1 req =
      (.failure 400 "OpenAI client not configured" [], []) := by
  have hoc : (initClients cfg openaiNew minioNew).1 = none := by
    simp [initClients, h]
  rw [hoc]
  rfl

/-- Claim C2, counterexample to the claim as stated: with an empty
completion key the failure's detail is `OpenAI client not configured`,
not `completion client not configured`. -/
theorem c2_counterexample :
    (chatHandler (initClients cfgEx openaiNewEx minioNewEx).1 chatReqEx).1 =
      HandlerResult.failure 400 "OpenAI client not configured" [] ∧
    (chatHandler (initClients cfgEx openaiNewEx minioNewEx).1 chatReqEx).1 ≠
      HandlerResult.failure 400 "completion client not configured" [] :=
  ⟨by decide, by decide⟩

/-- Claim C2, witness: the amended theorem applied to the all-empty
configuration and the scenario request. -/
theorem c2_witness :
    cfgEx.openaiKey = "" ∧
    chatHandler (initClients cfgEx openaiNewEx minioNewEx).1 chatReqEx =
      (.failure 400 "OpenAI client not configured" [], []) :=
  ⟨rfl, c2_chat_not_configured cfgEx openaiNewEx minioNewEx chatReqEx rfl⟩

/-- Claim C3 (amended): with a configured storage client the `/upload`
handler never returns an HTTP error status, performs the existence check,
conditional creation and object write in order (visible in the operation
trace), and each failure branch yields `success := false` with message
`Failed to check bucket existence: <err>`, `Failed to create bucket:
<err>` or `Failed to upload file: <err>` respectively, embedding the
provider's error text. -/
theorem c3_upload_branches (c : StorageClient) (req : FileUploadRequest) :
    (∀ status detail errs,
      (uploadHandler (some c) req).1 ≠ .failure status detail errs) ∧
    (∀ e, c.bucketExists req.bucketName = .error e →
      uploadHandler (some c) req =
        (.success { success := false
                    message := "Failed to check bucket existence: " ++ e },
         [.bucketExists req.bucketName])) ∧
    (∀ e, c.bucketExists req.bucketName = .ok false →
      c.makeBucket req.bucketName = .error e →
      uploadHandler (some c) req =
        (.success { success := false
                    message := "Failed to create bucket: " ++ e },
         [.bucketExists req.bucketName, .makeBucket req.bucketName])) ∧
    (∀ e, c.bucketExists req.bucketName = .ok true →
      c.putObject req.bucketName req.fileName req.content = .error e →
      uploadHandler (some c) req =
        (.success { success := false
                    message := "Failed to upload file: " ++ e },
         [.bucketExists req.bucketName,
          .putObject req.bucketName req.fileName req.content])) ∧
    (∀ e, c.bucketExists req.bucketName = .ok false →
      c.makeBucket req.bucketName = .ok () →
      c.putObject req.bucketName req.fileName req.content = .error e →
      uploadHandler (some c) req =
        (.success { success := false
                    message := "Failed to upload file: " ++ e },
         [.bucketExists req.bucketName, .makeBucket req.bucketName,
          .putObject req.bucketName req.fileName req.content])) := by
  refine ⟨?_, ?_, ?_, ?_, ?_⟩
  · intro status detail errs
    rcases hbe : c.bucketExists req.bucketName with e | ex
    · simp [uploadHandler, hbe]
    · cases ex
      · rcases hmb : c.makeBucket req.bucketName with e | u
        · simp [uploadHandler, hbe, hmb]
        · rcases hpo : c.putObject req.bucketName req.fileName req.content
            with e | u
          · simp [uploadHandler, hbe, hmb, hpo]
          · simp [uploadHandler, hbe, hmb, hpo]
      · rcases hpo : c.putObject req.bucketName req.fileName req.content
          with e | u
        · simp [uploadHandler, hbe, hpo]
        · simp [uploadHandler, hbe, hpo]
  · intro e hbe
    simp [uploadHandler, hbe]
  · intro e hbe hmb
    simp [uploadHandler, hbe, hmb]
  · intro e hbe hpo
    simp [uploadHandler, hbe, hpo]
  · intro e hbe hmb hpo
    simp [uploadHandler, hbe, hmb, hpo]

/-- Claim C3, counterexample to the claim as stated: a failing existence
check produces the message `Failed to check bucket existence: boom` with
a capital F, not `failed to check bucket existence: boom`. -/
theorem c3_counterexample :
    (uploadHandler (some stClientCheckErr) reqEx).1 =
      HandlerResult.success ⟨false, "Failed to check bucket existence: boom"⟩ ∧
    (uploadHandler (some stClientCheckErr) reqEx).1 ≠
      HandlerResult.success ⟨false, "failed to check bucket existence: boom"⟩ :=
  ⟨by decide, by decide⟩

/-- Claim C3, witness: the amended theorem's check-failure branch applied
to a client whose existence check fails with `boom`. -/
theorem c3_witness :
    uploadHandler (some stClientCheckErr) reqEx =
      (.success { success := false
                  message := "Failed to check bucket existence: boom" },
       [.bucketExists "test"]) := by
  rw [(c3_upload_branches stClientCheckErr reqEx).2.1 "boom" rfl]
  rfl

/-- Claim C4 (amended): the `/health` handler always returns HTTP 200 and
its body is, unconditionally and without probing reachability, the object
with `status` mapped to `healthy`, `services` mapped to the presence
booleans of the two clients under the keys `openai` and `minio`, and
`config` mapped to the effective `port` and `minio_url` values. -/
theorem c4_health_shape (cfg : Config) (oc : Option CompletionClient)
    (mc : Option StorageClient) :
    healthHandler cfg oc mc =
      .success [("status", .str "healthy"),
                ("services", .boolObj [("openai", oc.isSome),
                                       ("minio", mc.isSome)]),
                ("config", .strObj [("port", cfg.port),
                                    ("minio_url", cfg.minioURL)])] := rfl

/-- Claim C4, counterexample to the claim as stated: the body's service
and config keys are `openai`, `minio` and `minio_url`, so the body is not
the spec-shaped object with keys `completion`, `storage` and
`storage_endpoint`. -/
theorem c4_counterexample :
    healthHandler cfgEx none none ≠
      HandlerResult.success (specHealthBody cfgEx none none) := by decide

/-- Claim C5: with a configured completion client whose call succeeds, the
`/chat` handler returns HTTP 200 with reply `No response` when the
provider returns zero choices, and the first choice's content verbatim
otherwise. -/
theorem c5_chat_reply (c : CompletionClient) (req : ChatRequest)
    (resp : ChatCompletionResponse)
    (h : c (chatProviderRequest req.message) = .ok resp) :
    (resp.choices = [] →
      chatHandler (some c) req =
        (.success { reply := "No response" },
         [chatProviderRequest req.message])) ∧
    (∀ choice rest, resp.choices = choice :: rest →
      chatHandler (some c) req =
        (.success { reply := choice.message.content },
         [chatProviderRequest req.message])) := by
  constructor
  · intro hc
    simp [chatHandler, h, hc]
  · intro choice rest hc
    simp [chatHandler, h, hc]

/-- Claim C5, witness: the round-trip scenario, a client returning zero
choices on `Hello!` yields reply `No response`. -/
theorem c5_witness :
    chatHandler (some ccEmpty) chatReqEx =
      (.success { reply := "No response" }, [chatProviderRequest "Hello!"]) :=
  (c5_chat_reply ccEmpty chatReqEx { choices := [] } rfl).1 rfl

/-- Claim C6: with a configured completion client whose call fails, the
`/chat` handler fails with HTTP 500 carrying the provider's error text,
after exactly one provider call (never retried or suppressed). -/
theorem c6_chat_upstream_error (c : CompletionClient) (req : ChatRequest)
    (e : String)
    (h : c (chatProviderRequest req.message) = .error e) :
    chatHandler (some c) req =
      (.failure 500 "Failed to get OpenAI response" [e],
       [chatProviderRequest req.message]) := by
  simp [chatHandler, h]

/-- Claim C6, witness: the theorem applied to a client failing with
`boom`. -/
theorem c6_witness :
    chatHandler (some ccErr) chatReqEx =
      (.failure 500 "Failed to get OpenAI response" ["boom"],
       [chatProviderRequest "Hello!"]) :=
  c6_chat_upstream_error ccErr chatReqEx "boom" rfl

/-- Claim C7: when the existence check, the conditional creation and the
object write all succeed, the `/upload` handler returns HTTP 200 with
`success := true` and message `File <file_name> uploaded successfully to
bucket <bucket_name>`. -/
theorem c7_upload_success (c : StorageClient) (req : FileUploadRequest)
    (ex : Bool)
    (h1 : c.bucketExists req.bucketName = .ok ex)
    (h2 : ex = false → c.makeBucket req.bucketName = .ok ())
    (h3 : c.putObject req.bucketName req.fileName req.content = .ok ()) :
    (uploadHandler (some c) req).1 =
      .success { success := true
                 message := "File " ++ req.fileName ++
                   " uploaded successfully to bucket " ++ req.bucketName } := by
  cases ex
  · have hm := h2 rfl
    simp [uploadHandler, h1, hm, h3]
  · simp [uploadHandler, h1, h3]

/-- Claim C7, witness: the spec's scenario, uploading `hello.txt` to the
absent bucket `test` against a working client creates the bucket and
reports `File hello.txt uploaded successfully to bucket test`. -/
theorem c7_witness :
    (uploadHandler (some stClientFreshOk) reqEx).1 =
      HandlerResult.success
        ⟨true, "File hello.txt uploaded successfully to bucket test"⟩ := by
  rw [c7_upload_success stClientFreshOk reqEx false rfl (fun _ => rfl) rfl]
  rfl

/-- Claim C8: when the existence check reports that the bucket exists, the
`/upload` handler never issues a bucket creation, and when the write also
succeeds it still succeeds; the handler is a pure function of the client
and request, so repeated identical calls behave identically. -/
theorem c8_existing_bucket_skips_creation (c : StorageClient)
    (req : FileUploadRequest)
    (h : c.bucketExists req.bucketName = .ok true) :
    (∀ b, StorageOp.makeBucket b ∉ (uploadHandler (some c) req).2) ∧
    (c.putObject req.bucketName req.fileName req.content = .ok () →
      (uploadHandler (some c) req).1 =
        .success { success := true
                   message := "File " ++ req.fileName ++
                     " uploaded successfully to bucket " ++ req.bucketName }) := by
  constructor
  · intro b
    rcases hpo : c.putObject req.bucketName req.fileName req.content with e | u
    · simp [uploadHandler, h, hpo]
    · simp [uploadHandler, h, hpo]
  · intro hpo
    simp [uploadHandler, h, hpo]

/-- Claim C8, witness: against a client whose bucket `test` exists, no
creation operation appears in the trace and the upload succeeds. -/
theorem c8_witness :
    StorageOp.makeBucket "test" ∉ (uploadHandler (some stClientAllOk) reqEx).2 ∧
    (uploadHandler (some stClientAllOk) reqEx).1 =
      HandlerResult.success
        ⟨true, "File hello.txt uploaded successfully to bucket test"⟩ := by
  constructor
  · exact (c8_existing_bucket_skips_creation stClientAllOk reqEx rfl).1 "test"
  · rw [(c8_existing_bucket_skips_creation stClientAllOk reqEx rfl).2 rfl]
    rfl

/-- Claim C9: configuration loading merges defaults, the optional file and
the prefixed environment with environment precedence: `port` defaults to
`8080`, the storage endpoint `minio_url` defaults to `localhost:9000`,
and an environment value of `9090` for `port` overrides any file value. -/
theorem c9_config_layering (fileCfg envVars : String → Option String) :
    (envVars "APP_PORT" = none → fileCfg "port" = none →
      (initConfig fileCfg envVars).port = "8080") ∧
    (envVars "APP_MINIO_URL" = none → fileCfg "minio_url" = none →
      (initConfig fileCfg envVars).minioURL = "localhost:9000") ∧
    (envVars "APP_PORT" = some "9090" →
      (initConfig fileCfg envVars).port = "9090") := by
  have hp : envVarName "port" = "APP_PORT" := rfl
  have hm : envVarName "minio_url" = "APP_MINIO_URL" := rfl
  refine ⟨?_, ?_, ?_⟩
  · intro h1 h2
    simp [initConfig, viperGetString, hp, h1, h2, appDefaults]
  · intro h1 h2
    simp [initConfig, viperGetString, hm, h1, h2, appDefaults]
  · intro h1
    simp [initConfig, viperGetString, hp, h1]

/-- Claim C9, witness: with the file assigning port `8080` and the
environment assigning `APP_PORT` the value `9090`, the loaded port is
`9090`. -/
theorem c9_witness :
    envVarsEx "APP_PORT" = some "9090" ∧ fileCfgEx "port" = some "8080" ∧
    (initConfig fileCfgEx envVarsEx).port = "9090" :=
  ⟨rfl, rfl, (c9_config_layering fileCfgEx envVarsEx).2.2 rfl⟩

/-- Claim C10: when both storage credentials are non-empty but the storage
client constructor fails, initialisation continues with the storage client
absent, every subsequent `/upload` returns the degraded not-configured
response, and the health body reports the storage service as `false`. -/
theorem c10_construction_failure_degrades (cfg : Config)
    (openaiNew : String → CompletionClient)
    (minioNew : String → Except String StorageClient) (e : String)
    (h1 : cfg.minioKey ≠ "") (h2 : cfg.minioSecret ≠ "")
    (h3 : minioNew cfg.minioURL = .error e) :
    (initClients cfg openaiNew minioNew).2.isNone = true ∧
    (∀ req, uploadHandler (initClients cfg openaiNew minioNew).2 req =
      (.success { success := false, message := "MinIO client not configured" },
       [])) ∧
    (healthBody cfg (initClients cfg openaiNew minioNew).1
        (initClients cfg openaiNew minioNew).2).lookup "services" =
      some (.boolObj [("openai", (initClients cfg openaiNew minioNew).1.isSome),
                      ("minio", false)]) := by
  have hmc : (initClients cfg openaiNew minioNew).2 = none := by
    simp [initClients, h1, h2, h3]
  refine ⟨?_, ?_, ?_⟩
  · rw [hmc]
    rfl
  · intro req
    rw [hmc]
    rfl
  · rw [hmc]
    rfl

/-- Claim C10, witness: a full configuration with a failing constructor
leaves the storage client absent, degrades uploads, and reports the
`minio` service flag as false. -/
theorem c10_witness :
    (initClients cfgFull openaiNewEx minioNewFail).2.isNone = true ∧
    uploadHandler (initClients cfgFull openaiNewEx minioNewFail).2 reqEx =
      (.success { success := false, message := "MinIO client not configured" },
       []) ∧
    (healthBody cfgFull (initClients cfgFull openaiNewEx minioNewFail).1
        (initClients cfgFull openaiNewEx minioNewFail).2).lookup "services" =
      some (.boolObj [("openai", true), ("minio", false)]) := by
  have h := c10_construction_failure_degrades cfgFull openaiNewEx minioNewFail
    "connection refused" (by decide) (by decide) rfl
  refine ⟨h.1, h.2.1 reqEx, ?_⟩
  rw [h.2.2]
  rfl
